import Mathlib

/-!
Verification of the `spike/parser.py` module of the michael repository.

The Python module is shallowly embedded below: its pure helpers
(`_extract_json`, `_build_result`, `build_system_prompt`) become Lean
functions over `String` / `List Char`; the pydantic `ParseResult` model
becomes a Lean structure together with an explicit validator; the provider
adapters (`parse_with_anthropic`, `parse_with_openai`, `parse_with_gemini`)
become functions parameterised by the process environment and by a transport
function, returning the produced record together with a flag recording
whether the network transport was invoked.

Modelling notes, applying to the whole file:
* Python strings are modelled as Lean `String` / `List Char`.  Lone
  surrogate code points (reachable only through `\uXXXX` escapes in JSON
  input) are not representable in a Lean `Char` and are mapped to U+FFFD.
* `json.loads` is modelled by an executable recursive-descent parser with a
  fuel argument; the fuel supplied at the entry points exceeds any possible
  number of recursion steps, so fuel exhaustion is unreachable.
  Interpreter resource limits (CPython recursion/memory limits) are outside
  the model.
* JSON numbers written with a fraction or an exponent (and the constants
  NaN / Infinity) are modelled by `Json.num none`: their numeric value is
  irrelevant to every claim, only the fact that they are not integer
  literals.  Consequently the pydantic lax coercions `float -> int` (for
  integral floats) and `str -> int` are not modelled: the modelled
  validator accepts exactly JSON integer literals (or null) for
  `duration_minutes`.  No claim depends on inputs in that gap.
-/

namespace Spike

/-- Characters stripped by Python `str.strip()` (the `str.isspace` set),
given by code point. -/
def pyIsSpace (c : Char) : Bool :=
  let n := c.toNat
  (9 ≤ n && n ≤ 13) || (28 ≤ n && n ≤ 31) || n = 32 || n = 0x85 || n = 0xa0 ||
  n = 0x1680 || (0x2000 ≤ n && n ≤ 0x200a) || n = 0x2028 || n = 0x2029 ||
  n = 0x202f || n = 0x205f || n = 0x3000

/-- Whitespace accepted by the JSON grammar (`json.loads`). -/
def jsonWs (c : Char) : Bool :=
  c = ' ' || c = '\t' || c = '\n' || c = '\r'

/-- Leading strip, as in Python `str.lstrip()`. -/
def lstripL (l : List Char) : List Char := l.dropWhile pyIsSpace

/-- Trailing strip, as in Python `str.rstrip()`. -/
def rstripL (l : List Char) : List Char := (l.reverse.dropWhile pyIsSpace).reverse

/-- Both-ends strip, as in Python `str.strip()`. -/
def stripL (l : List Char) : List Char := lstripL (rstripL l)

/-- Test whether `pat` is a prefix of `l` (Python `str.startswith`). -/
def startsWithL : List Char → List Char → Bool
  | [], _ => true
  | _ :: _, [] => false
  | p :: ps, c :: cs => p = c && startsWithL ps cs

/-- Test whether `pat` is a suffix of `l` (Python `str.endswith`). -/
def endsWithL (pat l : List Char) : Bool := startsWithL pat.reverse l.reverse

/-- Drop everything up to and including the first newline; `none` when the
text has no newline, modelling the `ValueError` raised by `str.index`. -/
def dropThroughNewline : List Char → Option (List Char)
  | [] => none
  | c :: t => if c = '\n' then some t else dropThroughNewline t

/-- Drop the last `n` characters, as in the Python slice `text[: -n]`. -/
def takeAllBut (n : Nat) (l : List Char) : List Char := l.take (l.length - n)

/-- The backtick character, written by code point. -/
def backquote : Char := Char.ofNat 96

/-- The three-backtick markdown fence marker. -/
def fence3 : List Char := [backquote, backquote, backquote]

/-- JSON values as produced by `json.loads`.  Objects keep their key/value
pairs in source order; lookup is last-occurrence-wins, matching Python dict
construction.  `num (some n)` is an integer literal; `num none` is any other
numeric literal (fraction, exponent, NaN, Infinity). -/
inductive Json where
  | null : Json
  | bool (b : Bool) : Json
  | num (intPart : Option Int) : Json
  | str (s : String) : Json
  | arr (elems : List Json) : Json
  | obj (fields : List (String × Json)) : Json

/-- Last-occurrence-wins key lookup on a JSON object, matching the value a
Python dict built from the pairs in order would hold. -/
def getKey : List (String × Json) → String → Option Json
  | [], _ => none
  | (k', v) :: t, k =>
    match getKey t k with
    | some r => some r
    | none => if k' = k then some v else none

/-- The double-quote character. -/
def dquote : Char := '\"'

/-- The backslash character. -/
def bslash : Char := '\\'

/-- The opening-brace character, written by code point. -/
def lbrace : Char := Char.ofNat 123

/-- The closing-brace character, written by code point. -/
def rbrace : Char := Char.ofNat 125

/-- Value of a hexadecimal digit, by code point: `0`-`9`, `a`-`f`,
`A`-`F`. -/
def hexVal (c : Char) : Option Nat :=
  let n := c.toNat
  if 48 ≤ n && n ≤ 57 then some (n - 48)
  else if 97 ≤ n && n ≤ 102 then some (n - 87)
  else if 65 ≤ n && n ≤ 70 then some (n - 55)
  else none

/-- Parse four hexadecimal digits. -/
def parseHex4 : List Char → Option (Nat × List Char)
  | a :: b :: c :: d :: t =>
    match hexVal a, hexVal b, hexVal c, hexVal d with
    | some va, some vb, some vc, some vd =>
      some (((va * 16 + vb) * 16 + vc) * 16 + vd, t)
    | _, _, _, _ => none
  | _ => none

/-- Turn a code point into a `Char`; code points that are not Unicode
scalar values (lone surrogates) become U+FFFD. -/
def charOfCode (n : Nat) : Char :=
  if 0xd800 ≤ n && n < 0xe000 then Char.ofNat 0xfffd else Char.ofNat n

/-- Body of a JSON string literal, after the opening quote.  Returns the
decoded characters and the remaining input.  Python `json` in its default
strict mode rejects unescaped control characters. -/
def parseStrAux : Nat → List Char → List Char → Except String (List Char × List Char)
  | 0, _, _ => .error "Unterminated string"
  | _, [], _ => .error "Unterminated string"
  | fuel + 1, c :: t, acc =>
    if c = dquote then .ok (acc.reverse, t)
    else if c = bslash then
      match t with
      | [] => .error "Unterminated string"
      | e :: t2 =>
        if e = dquote then parseStrAux fuel t2 (dquote :: acc)
        else if e = bslash then parseStrAux fuel t2 (bslash :: acc)
        else if e = '/' then parseStrAux fuel t2 ('/' :: acc)
        else if e = 'b' then parseStrAux fuel t2 ('\x08' :: acc)
        else if e = 'f' then parseStrAux fuel t2 ('\x0c' :: acc)
        else if e = 'n' then parseStrAux fuel t2 ('\n' :: acc)
        else if e = 'r' then parseStrAux fuel t2 ('\r' :: acc)
        else if e = 't' then parseStrAux fuel t2 ('\t' :: acc)
        else if e = 'u' then
          match t2 with
          | h1 :: h2 :: h3 :: h4 :: t3 =>
            match parseHex4 [h1, h2, h3, h4] with
            | none => .error "Invalid \\uXXXX escape"
            | some (n, _) =>
              if 0xd800 ≤ n && n ≤ 0xdbff then
                match t3 with
                | b1 :: u1 :: g1 :: g2 :: g3 :: g4 :: t4 =>
                  if b1 = bslash && u1 = 'u' then
                    match parseHex4 [g1, g2, g3, g4] with
                    | some (m, _) =>
                      if 0xdc00 ≤ m && m ≤ 0xdfff then
                        parseStrAux fuel t4
                          (charOfCode (0x10000 + (n - 0xd800) * 0x400 + (m - 0xdc00)) :: acc)
                      else parseStrAux fuel t3 (charOfCode n :: acc)
                    | none => parseStrAux fuel t3 (charOfCode n :: acc)
                  else parseStrAux fuel t3 (charOfCode n :: acc)
                | _ => parseStrAux fuel t3 (charOfCode n :: acc)
              else parseStrAux fuel t3 (charOfCode n :: acc)
          | _ => .error "Invalid \\uXXXX escape"
        else .error "Invalid \\escape"
    else if c.toNat < 0x20 then .error "Invalid control character"
    else parseStrAux fuel t (c :: acc)

/-- Decimal digit test. -/
def isDigitC (c : Char) : Bool := '0' ≤ c && c ≤ '9'

/-- Numeric value of a digit run (most significant first). -/
def digitsToNat (l : List Char) : Nat :=
  l.foldl (fun acc c => acc * 10 + (c.toNat - '0'.toNat)) 0

/-- Parse the integer-part digits of a JSON number: `0`, or a nonzero digit
followed by any digits.  Mirrors the JSON grammar, under which `01` parses
as `0` leaving `1` unconsumed. -/
def parseIntDigits : List Char → Except String (Nat × List Char)
  | [] => .error "Expecting value"
  | c :: t =>
    if c = '0' then .ok (0, t)
    else if isDigitC c then
      let (ds, rest) := t.span isDigitC
      .ok (digitsToNat (c :: ds), rest)
    else .error "Expecting value"

/-- Parse an optional fraction part; returns whether one was present. -/
def parseFrac : List Char → Except String (Bool × List Char)
  | [] => .ok (false, [])
  | c :: t =>
    if c = '.' then
      let (ds, rest) := t.span isDigitC
      if ds.isEmpty then .error "Expecting digit after decimal point"
      else .ok (true, rest)
    else .ok (false, c :: t)

/-- Parse an optional exponent part; returns whether one was present. -/
def parseExp : List Char → Except String (Bool × List Char)
  | [] => .ok (false, [])
  | c :: t =>
    if c = 'e' || c = 'E' then
      let t1 := match t with
        | s :: t' => if s = '+' || s = '-' then t' else s :: t'
        | [] => []
      let (ds, rest) := t1.span isDigitC
      if ds.isEmpty then .error "Expecting digit in exponent"
      else .ok (true, rest)
    else .ok (false, c :: t)

/-- Parse a JSON number (or the constants `NaN`, `Infinity`, `-Infinity`,
which the default `json.loads` accepts).  Integer literals keep their
value; every other numeric literal becomes `Json.num none`. -/
def parseNum (l : List Char) : Except String (Json × List Char) :=
  match l with
  | 'N' :: 'a' :: 'N' :: t => .ok (Json.num none, t)
  | 'I' :: 'n' :: 'f' :: 'i' :: 'n' :: 'i' :: 't' :: 'y' :: t => .ok (Json.num none, t)
  | '-' :: 'I' :: 'n' :: 'f' :: 'i' :: 'n' :: 'i' :: 't' :: 'y' :: t => .ok (Json.num none, t)
  | _ =>
    let (neg, l1) := match l with
      | '-' :: t => (true, t)
      | _ => (false, l)
    match parseIntDigits l1 with
    | .error e => .error e
    | .ok (n, r1) =>
      match parseFrac r1 with
      | .error e => .error e
      | .ok (hasF, r2) =>
        match parseExp r2 with
        | .error e => .error e
        | .ok (hasE, r3) =>
          if hasF || hasE then .ok (Json.num none, r3)
          else .ok (Json.num (some (if neg then -(n : Int) else (n : Int))), r3)

/-- Skip JSON whitespace. -/
def skipWs (l : List Char) : List Char := l.dropWhile jsonWs

mutual

/-- Parse one JSON value.  The fuel only bounds bracket-nesting depth and is
chosen larger than the input length at the top entry point. -/
def parseVal : Nat → List Char → Except String (Json × List Char)
  | 0, _ => .error "Too deeply nested"
  | fuel + 1, l =>
    match l with
    | [] => .error "Expecting value"
    | c :: t =>
      if c = lbrace then parseObjRest fuel (skipWs t)
      else if c = '[' then parseArrRest fuel (skipWs t)
      else if c = dquote then
        match parseStrAux (t.length + 1) t [] with
        | .error e => .error e
        | .ok (cs, rest) => .ok (Json.str (String.mk cs), rest)
      else if c = 't' then
        match t with
        | 'r' :: 'u' :: 'e' :: r => .ok (Json.bool true, r)
        | _ => .error "Expecting value"
      else if c = 'f' then
        match t with
        | 'a' :: 'l' :: 's' :: 'e' :: r => .ok (Json.bool false, r)
        | _ => .error "Expecting value"
      else if c = 'n' then
        match t with
        | 'u' :: 'l' :: 'l' :: r => .ok (Json.null, r)
        | _ => .error "Expecting value"
      else if c = '-' || isDigitC c || c = 'N' || c = 'I' then parseNum (c :: t)
      else .error "Expecting value"

/-- Parse the inside of a JSON object, entered just past the opening brace
with leading whitespace already skipped. -/
def parseObjRest : Nat → List Char → Except String (Json × List Char)
  | 0, _ => .error "Too deeply nested"
  | fuel + 1, l =>
    match l with
    | [] => .error "Expecting property name enclosed in double quotes"
    | c :: t =>
      if c = rbrace then .ok (Json.obj [], t)
      else if c = dquote then parseMembers fuel (c :: t) []
      else .error "Expecting property name enclosed in double quotes"

/-- Parse the members of a JSON object, positioned at a key quote. -/
def parseMembers : Nat → List Char → List (String × Json) →
    Except String (Json × List Char)
  | 0, _, _ => .error "Too deeply nested"
  | fuel + 1, l, acc =>
    match l with
    | [] => .error "Expecting property name enclosed in double quotes"
    | c :: t =>
      if c = dquote then
        match parseStrAux (t.length + 1) t [] with
        | .error e => .error e
        | .ok (k, r1) =>
          match skipWs r1 with
          | ':' :: r2 =>
            match parseVal fuel (skipWs r2) with
            | .error e => .error e
            | .ok (v, r3) =>
              match skipWs r3 with
              | ',' :: r4 => parseMembers fuel (skipWs r4) ((String.mk k, v) :: acc)
              | d :: r4 =>
                if d = rbrace then .ok (Json.obj ((String.mk k, v) :: acc).reverse, r4)
                else .error "Expecting ',' delimiter"
              | [] => .error "Expecting ',' delimiter"
          | _ => .error "Expecting ':' delimiter"
      else .error "Expecting property name enclosed in double quotes"

/-- Parse the inside of a JSON array, entered just past the opening bracket
with leading whitespace already skipped. -/
def parseArrRest : Nat → List Char → Except String (Json × List Char)
  | 0, _ => .error "Too deeply nested"
  | fuel + 1, l =>
    match l with
    | [] => .error "Expecting value"
    | c :: t =>
      if c = ']' then .ok (Json.arr [], t)
      else parseElems fuel (c :: t) []

/-- Parse the elements of a JSON array, positioned at a value. -/
def parseElems : Nat → List Char → List Json → Except String (Json × List Char)
  | 0, _, _ => .error "Too deeply nested"
  | fuel + 1, l, acc =>
    match parseVal fuel l with
    | .error e => .error e
    | .ok (v, r1) =>
      match skipWs r1 with
      | ',' :: r2 => parseElems fuel (skipWs r2) (v :: acc)
      | d :: r2 =>
        if d = ']' then .ok (Json.arr (v :: acc).reverse, r2)
        else .error "Expecting ',' delimiter"
      | [] => .error "Expecting ',' delimiter"

end

/-- Model of Python `json.loads` on a character list: one JSON value with
surrounding whitespace, nothing else.  Three fuel units always suffice per
consumed input character, so fuel exhaustion is unreachable. -/
def pyJsonLoadsL (l : List Char) : Except String Json :=
  match parseVal (3 * l.length + 3) (skipWs l) with
  | .error e => .error e
  | .ok (j, rest) =>
    if skipWs rest = [] then .ok j else .error "Extra data"

/-- Model of Python `json.loads` on a string. -/
def pyJsonLoads (s : String) : Except String Json := pyJsonLoadsL s.data

/-- Model of the pydantic `AvailabilityWindow` schema.  The Python field
`end` is a Lean keyword and is rendered `end_`. -/
structure AvailabilityWindow where
  start : String
  end_ : String
  timezone : Option String := none
deriving DecidableEq, Repr

/-- Model of the pydantic `ParseResult` schema, with the source defaults. -/
structure ParseResult where
  availability_windows : List AvailabilityWindow := []
  duration_minutes : Option Int := none
  title : Option String := none
  description : Option String := none
  name : Option String := none
  email : Option String := none
  phone : Option String := none
  missing_fields : List String := []
  raw_model_output : Option String := none
  error : Option String := none
deriving DecidableEq, Repr

/-- The default missing-field list used by both failure branches of
`_build_result`. -/
def defaultMissingAll : List String :=
  ["availability", "duration", "title", "name", "email"]

/-- Validation of a required string field (pydantic `str`): the key must be
present and hold a string; `null` and absence are rejected. -/
def vReqStr : Option Json → Except String String
  | some (.str s) => .ok s
  | _ => .error "string required"

/-- Validation of an `Optional[str]` field: absent or `null` become `none`;
a string is kept; anything else is rejected. -/
def vOptStr : Option Json → Except String (Option String)
  | none => .ok none
  | some .null => .ok none
  | some (.str s) => .ok (some s)
  | some _ => .error "string expected"

/-- Validation of an `Optional[int]` field: absent or `null` become `none`;
an integer literal is kept; anything else is rejected (see the numeric
modelling note at the top of the file). -/
def vOptInt : Option Json → Except String (Option Int)
  | none => .ok none
  | some .null => .ok none
  | some (.num (some n)) => .ok (some n)
  | some _ => .error "integer expected"

/-- Validation of one availability window: a JSON object with required
string `start` and `end` and optional string `timezone`; unknown keys are
ignored, as pydantic does by default. -/
def winOf : Json → Except String AvailabilityWindow
  | .obj kvs =>
    match vReqStr (getKey kvs "start") with
    | .error _ => .error "invalid availability window"
    | .ok s =>
      match vReqStr (getKey kvs "end") with
      | .error _ => .error "invalid availability window"
      | .ok e =>
        match vOptStr (getKey kvs "timezone") with
        | .error _ => .error "invalid availability window"
        | .ok tz => .ok ⟨s, e, tz⟩
  | _ => .error "invalid availability window"

/-- Validation of a list of availability windows. -/
def winListOf : List Json → Except String (List AvailabilityWindow)
  | [] => .ok []
  | j :: t =>
    match winOf j with
    | .error e => .error e
    | .ok w =>
      match winListOf t with
      | .error e => .error e
      | .ok ws => .ok (w :: ws)

/-- Validation of the `availability_windows` field: absent means `[]`. -/
def vWindows : Option Json → Except String (List AvailabilityWindow)
  | none => .ok []
  | some (.arr xs) => winListOf xs
  | some _ => .error "list expected"

/-- Validation of a JSON array whose elements must all be strings. -/
def strListOf : List Json → Except String (List String)
  | [] => .ok []
  | .str s :: t =>
    match strListOf t with
    | .ok r => .ok (s :: r)
    | .error e => .error e
  | _ :: _ => .error "string expected"

/-- Validation of the `missing_fields` field (`list[str]`): absent means
`[]`; the element values are unconstrained strings — the enumeration in the
field description is documentation, not a validator. -/
def vStrList : Option Json → Except String (List String)
  | none => .ok []
  | some (.arr xs) => strListOf xs
  | some _ => .error "list expected"

/-- Model of `ParseResult(**data)`: `data` must be a mapping (otherwise the
`**` splat raises `TypeError`, caught by `_build_result`); each known key is
validated, absent keys take the field defaults, unknown keys are ignored. -/
def validateJ (j : Json) : Except String ParseResult :=
  match j with
  | .obj kvs =>
    match vWindows (getKey kvs "availability_windows") with
    | .error _ => .error "field validation failed"
    | .ok aw =>
      match vOptInt (getKey kvs "duration_minutes") with
      | .error _ => .error "field validation failed"
      | .ok dm =>
        match vOptStr (getKey kvs "title") with
        | .error _ => .error "field validation failed"
        | .ok ti =>
          match vOptStr (getKey kvs "description") with
          | .error _ => .error "field validation failed"
          | .ok de =>
            match vOptStr (getKey kvs "name") with
            | .error _ => .error "field validation failed"
            | .ok nm =>
              match vOptStr (getKey kvs "email") with
              | .error _ => .error "field validation failed"
              | .ok em =>
                match vOptStr (getKey kvs "phone") with
                | .error _ => .error "field validation failed"
                | .ok ph =>
                  match vStrList (getKey kvs "missing_fields") with
                  | .error _ => .error "field validation failed"
                  | .ok mf =>
                    match vOptStr (getKey kvs "raw_model_output") with
                    | .error _ => .error "field validation failed"
                    | .ok rm =>
                      match vOptStr (getKey kvs "error") with
                      | .error _ => .error "field validation failed"
                      | .ok er => .ok ⟨aw, dm, ti, de, nm, em, ph, mf, rm, er⟩
  | _ => .error "argument after ** must be a mapping"

/-- Model of `_extract_json` on a character list, following the source
line by line: strip; if the text starts with a fence, drop the opening
marker line (raising, i.e. returning an error, when there is no newline),
drop a trailing `\x60\x60\x60` when present, strip again; then parse. -/
def extractJsonL (l : List Char) : Except String Json :=
  if startsWithL fence3 (stripL l) then
    match dropThroughNewline (stripL l) with
    | none => .error "substring not found"
    | some rest =>
      pyJsonLoadsL (stripL (if endsWithL fence3 rest then takeAllBut 3 rest else rest))
  else pyJsonLoadsL (stripL l)

/-- Model of `_extract_json` on a string. -/
def _extract_json (text : String) : Except String Json := extractJsonL text.data

/-- Model of `_build_result`: JSON-extraction failure and schema-validation
failure each produce the error record of the source; on success the parsed
record has its `raw_model_output` overwritten with the raw input. -/
def _build_result (raw : String) : ParseResult :=
  match _extract_json raw with
  | .error e =>
    { raw_model_output := some raw,
      error := some ("Failed to parse JSON: " ++ e),
      missing_fields := defaultMissingAll }
  | .ok data =>
    match validateJ data with
    | .ok result => { result with raw_model_output := some raw }
    | .error e =>
      { raw_model_output := some raw,
        error := some ("Failed to validate schema: " ++ e),
        missing_fields := defaultMissingAll }

/-- Numeric value of a decimal digit character. -/
def digitVal (c : Char) : Nat := c.toNat - 48

/-- Gregorian leap-year test. -/
def isLeapYear (y : Nat) : Bool := (y % 4 = 0 && y % 100 ≠ 0) || y % 400 = 0

/-- Length of a month in the Gregorian calendar. -/
def daysInMonth (y m : Nat) : Nat :=
  if m = 2 then (if isLeapYear y then 29 else 28)
  else if m = 4 || m = 6 || m = 9 || m = 11 then 30
  else 31

/-- Parse two digit characters into a value at most `mx`. -/
def twoDigitAtMost (a b : Char) (mx : Nat) : Option Nat :=
  if isDigitC a && isDigitC b then
    let v := digitVal a * 10 + digitVal b
    if v ≤ mx then some v else none
  else none

/-- Validity of a modelled UTC-offset suffix: empty or `±HH:MM`. -/
def validOffsetL : List Char → Bool
  | [] => true
  | c :: h1 :: h2 :: ':' :: m1 :: m2 :: [] =>
    (c = '+' || c = '-') && (twoDigitAtMost h1 h2 23).isSome &&
      (twoDigitAtMost m1 m2 59).isSome
  | _ => false

/-- Validity of a modelled time-of-day part: empty or `HH:MM:SS` plus an
optional offset. -/
def validTimeL : List Char → Bool
  | [] => true
  | h1 :: h2 :: ':' :: m1 :: m2 :: ':' :: s1 :: s2 :: rest =>
    (twoDigitAtMost h1 h2 23).isSome && (twoDigitAtMost m1 m2 59).isSome &&
      (twoDigitAtMost s1 s2 59).isSome && validOffsetL rest
  | _ => false

/-- Modelled subset of `datetime.fromisoformat`, returning the calendar
date: `YYYY-MM-DD`, optionally followed by `T` or a space and a time of day
`HH:MM:SS` with an optional `±HH:MM` offset.  The source only uses the date
and its day of week, so the finer time grammar of CPython is not modelled;
an unparsable string yields `none`, modelling the raised `ValueError`. -/
def pyFromIsoFormat (s : String) : Option (Nat × Nat × Nat) :=
  match s.data with
  | y1 :: y2 :: y3 :: y4 :: '-' :: m1 :: m2 :: '-' :: d1 :: d2 :: rest =>
    if [y1, y2, y3, y4, m1, m2, d1, d2].all isDigitC then
      let y := digitsToNat [y1, y2, y3, y4]
      let m := digitVal m1 * 10 + digitVal m2
      let d := digitVal d1 * 10 + digitVal d2
      if 1 ≤ y && 1 ≤ m && m ≤ 12 && 1 ≤ d && d ≤ daysInMonth y m then
        match rest with
        | [] => some (y, m, d)
        | sep :: t =>
          if (sep = 'T' || sep = ' ') && validTimeL t then some (y, m, d)
          else none
      else none
    else none
  | _ => none

/-- Day of week by Zeller\x27s congruence: 0 is Saturday, 1 is Sunday, and
so on. -/
def zellerDayOfWeek (y m d : Nat) : Nat :=
  let y' := if m ≤ 2 then y - 1 else y
  let m' := if m ≤ 2 then m + 12 else m
  let k := y' % 100
  let j := y' / 100
  (d + 13 * (m' + 1) / 5 + k + k / 4 + j / 4 + 5 * j) % 7

/-- English day-of-week name, as `datetime.strftime("%A")` produces in the
C locale. -/
def dayOfWeekName (y m d : Nat) : String :=
  match zellerDayOfWeek y m d with
  | 0 => "Saturday"
  | 1 => "Sunday"
  | 2 => "Monday"
  | 3 => "Tuesday"
  | 4 => "Wednesday"
  | 5 => "Thursday"
  | _ => "Friday"

/-- Zero-padded two-digit rendering. -/
def pad2 (n : Nat) : String := if n < 10 then "0" ++ toString n else toString n

/-- Zero-padded four-digit rendering. -/
def pad4 (n : Nat) : String :=
  if n < 10 then "000" ++ toString n
  else if n < 100 then "00" ++ toString n
  else if n < 1000 then "0" ++ toString n
  else toString n

/-- The `strftime("%Y-%m-%d")` rendering of a date. -/
def isoDateStr (y m d : Nat) : String := pad4 y ++ "-" ++ pad2 m ++ "-" ++ pad2 d

/-- The `SCHEMA_JSON` constant of the source, verbatim. -/
def SCHEMA_JSON : String :=
  "\x7b\n  \"availability_windows\": [\n    \x7b\n      \"start\": \"ISO-8601 datetime string\",\n      \"end\": \"ISO-8601 datetime string\",\n      \"timezone\": \"IANA timezone or null\"\n    \x7d\n  ],\n  \"duration_minutes\": \"integer or null\",\n  \"title\": \"string or null\",\n  \"description\": \"string or null\",\n  \"name\": \"string or null\",\n  \"email\": \"string or null\",\n  \"phone\": \"string or null\",\n  \"missing_fields\": [\"list of strings from: availability, duration, title, name, email\"]\n\x7d"

/-- Literal chunk 0 of the system-prompt f-string. -/
def promptChunk0 : String :=
  "You are a scheduling assistant for a meeting booking tool. Your job is to\nextract structured scheduling data from a participant\x27s natural language input.\n\n## Reference date/time\n\nThe current date and time is: "

/-- Literal chunk 1 of the system-prompt f-string. -/
def promptChunk1 : String :=
  "\nThe current day of the week is: "

/-- Literal chunk 2 of the system-prompt f-string. -/
def promptChunk2 : String :=
  "\nThe participant\x27s timezone is: "

/-- Literal chunk 3 of the system-prompt f-string. -/
def promptChunk3 : String :=
  "\n\nUse this to resolve ALL relative date expressions. Here is how to resolve them:\n\n- \"today\" = "

/-- Literal chunk 4 of the system-prompt f-string. -/
def promptChunk4 : String :=
  " ("

/-- Literal chunk 5 of the system-prompt f-string. -/
def promptChunk5 : String :=
  ")\n- \"tomorrow\" = the next calendar day\n- \"next <weekday>\" = the FIRST occurrence of that weekday AFTER today. For\n  example, if today is Friday January 30, then \"next Monday\" = February 2,\n  \"next Tuesday\" = February 3, \"next Friday\" = February 6.\n- \"this <weekday>\" = same as \"next <weekday>\" if that day hasn\x27t occurred yet\n  this week; otherwise the following week.\n- \"next week\" = the full Monday-through-Friday of the week following the\n  current one. If today is Friday Jan 30, \"next week\" = Feb 2-6.\n\nIMPORTANT: You MUST verify that the day-of-week you produce matches the\ncalendar date. For example, if you output 2026-02-03, verify that Feb 3 2026\nis indeed a Tuesday (it is — Jan 30 is Friday, +1=Sat, +2=Sun, +3=Mon Feb 2,\n+4=Tue Feb 3). Getting the day-of-week wrong is the most common error.\n\n## Date resolution rules\n\n- ALL dates in the output MUST be in the future relative to the reference\n  date ("

/-- Literal chunk 6 of the system-prompt f-string. -/
def promptChunk6 : String :=
  ").\n- If the participant provides a date that appears to be in the past (e.g.,\n  \"Jan 20\" when today is Jan 30), resolve it to the next future occurrence\n  of that date pattern. For \"Mon Jan 20\", find the next Monday that is a\n  Jan 20 or, if the intent is clearly \"next Monday\", use the next Monday.\n  Use your best judgment but NEVER return a past date.\n- If the participant provides day-of-week names without dates (e.g., \"Monday\n  and Wednesday\"), resolve to the NEXT occurrence of each after today.\n\n## What to extract\n\nFrom the participant\x27s message, extract ALL of the following that are present:\n\n1. **Availability windows** — when they are free. Convert every mentioned\n   time range into an explicit start/end pair as ISO-8601 datetime strings.\n\n   Time interpretation defaults:\n   - \"morning\" = 09:00 to 12:00\n   - \"afternoon\" = 12:00 to 17:00\n   - \"evening\" = 17:00 to 20:00\n   - \"all day\" or no time qualifier for a specific date = 09:00 to 17:00\n   - \"after <time>\" (e.g., \"after 3pm\") = <time> to 17:00 (end of business)\n   - \"before <time>\" (e.g., \"before noon\") = 09:00 to <time>\n\n   Point-in-time expressions: If the participant says \"I can meet at 2pm\"\n   or \"2pm works\", treat this as the START of an availability window, not a\n   fixed 1-hour block. Use a 2-hour window starting at that time (e.g.,\n   \"at 2pm\" = 14:00 to 16:00) unless context suggests otherwise.\n\n   Timezone handling: If the participant mentions a specific timezone (e.g.,\n   \"2pm EST\"), use that timezone for the offset and note it in the timezone\n   field. Otherwise use the participant\x27s default timezone ("

/-- Literal chunk 7 of the system-prompt f-string. -/
def promptChunk7 : String :=
  ").\n\n2. **Duration** — the requested meeting length in minutes.\n\n3. **Title** — a short title or topic for the meeting. Extract from topical\n   phrases like \"chat about X\", \"discuss Y\", \"re: Z\" — use X/Y/Z as title.\n\n4. **Description** — briefly describe how you interpreted the input, noting\n   any assumptions you made (e.g., \"Interpreted \x27afternoon\x27 as 12:00-17:00\",\n   \"Resolved \x27next Tuesday\x27 to Feb 3\"). This helps the participant confirm\n   your interpretation. Leave null only if the input was completely\n   unambiguous.\n\n5. **Name** — the participant\x27s name.\n\n6. **Email** — the participant\x27s email address.\n\n7. **Phone** — the participant\x27s phone number.\n\n## Missing fields\n\nAfter extraction, determine which REQUIRED fields are still missing. The\nrequired fields are: availability, duration, title, name, email.\nList each missing required field in the \x60missing_fields\x60 array.\nPhone is optional and should NOT appear in missing_fields.\n\n## Output format\n\nRespond with ONLY a JSON object matching this exact schema (no markdown\nfencing, no commentary, no extra keys):\n\n"

/-- Literal chunk 8 of the system-prompt f-string. -/
def promptChunk8 : String :=
  "\n\n## Rules\n\n- Return ONLY valid JSON. No markdown code fences. No explanation text.\n- All datetime strings must be ISO-8601 with timezone offset\n  (e.g., \"2026-02-03T09:00:00-05:00\").\n- If the participant mentions an exception (e.g., \"except Wednesday at noon\"),\n  split the window around the exception. For example, \"10am to 3pm except\n  noon\" becomes two windows: 10:00-12:00 and 13:00-15:00.\n- If structured/formatted text is pasted (e.g., \"Available slots: ...\"),\n  parse it just like natural language — extract the same fields.\n- NEVER return dates in the past relative to "

/-- Literal chunk 9 of the system-prompt f-string. -/
def promptChunk9 : String :=
  ".\n"


/-- Model of `build_system_prompt`: parse the reference datetime (a failed
parse models the uncaught `ValueError`), compute the day-of-week name, and
interpolate the f-string template, whose literal chunks are the
`promptChunk` constants above. -/
def build_system_prompt (reference_dt reference_tz : String) : Option String :=
  match pyFromIsoFormat reference_dt with
  | none => none
  | some (y, m, d) =>
    let dow := dayOfWeekName y m d
    let dateS := isoDateStr y m d
    some (promptChunk0 ++ reference_dt ++ promptChunk1 ++ dow ++ promptChunk2 ++
      reference_tz ++ promptChunk3 ++ dateS ++ promptChunk4 ++ dow ++
      promptChunk5 ++ dateS ++ promptChunk6 ++ reference_tz ++ promptChunk7 ++
      SCHEMA_JSON ++ promptChunk8 ++ dateS ++ promptChunk9)

/-- Python truthiness of `os.environ.get(...)`: `None` and the empty string
are falsy. -/
def truthy : Option String → Bool
  | none => false
  | some s => !s.isEmpty

/-- The credential-missing record `ParseResult(error=...)`: every other
field keeps its pydantic default — in particular `missing_fields` is `[]`,
not the full default set. -/
def credErrorRecord (msg : String) : ParseResult := { error := some msg }

/-- Model of `parse_with_anthropic`.  `env` models `os.environ.get`;
`transport` models the vendor SDK round trip (system prompt and user input
to raw completion text).  The returned flag records whether the transport
was invoked; the `Except.error` case models the `ValueError` escaping from
`build_system_prompt` on a malformed reference datetime. -/
def parse_with_anthropic (env : String → Option String)
    (transport : String → String → String)
    (user_input reference_dt reference_tz : String) :
    Except String (ParseResult × Bool) :=
  let api_key := env "ANTHROPIC_API_KEY"
  if !truthy api_key then .ok (credErrorRecord "ANTHROPIC_API_KEY not set", false)
  else
    match build_system_prompt reference_dt reference_tz with
    | none => .error "Invalid isoformat string"
    | some system =>
      .ok (_build_result (transport system user_input), true)

/-- Model of `parse_with_openai`, structured exactly as the Anthropic
variant with its own credential name. -/
def parse_with_openai (env : String → Option String)
    (transport : String → String → String)
    (user_input reference_dt reference_tz : String) :
    Except String (ParseResult × Bool) :=
  let api_key := env "OPENAI_API_KEY"
  if !truthy api_key then .ok (credErrorRecord "OPENAI_API_KEY not set", false)
  else
    match build_system_prompt reference_dt reference_tz with
    | none => .error "Invalid isoformat string"
    | some system =>
      .ok (_build_result (transport system user_input), true)

/-- Model of `parse_with_gemini`: the credential is
`os.environ.get("GEMINI_API_KEY") or os.environ.get("GOOGLE_API_KEY")`,
with Python `or` semantics (first truthy value wins). -/
def parse_with_gemini (env : String → Option String)
    (transport : String → String → String)
    (user_input reference_dt reference_tz : String) :
    Except String (ParseResult × Bool) :=
  let g := env "GEMINI_API_KEY"
  let api_key := if truthy g then g else env "GOOGLE_API_KEY"
  if !truthy api_key then
    .ok (credErrorRecord "GEMINI_API_KEY / GOOGLE_API_KEY not set", false)
  else
    match build_system_prompt reference_dt reference_tz with
    | none => .error "Invalid isoformat string"
    | some system =>
      .ok (_build_result (transport system user_input), true)

/-- Test for the error case of an `Except` result. -/
def isErrE {α : Type} : Except String α → Bool
  | .error _ => true
  | .ok _ => false

/-- Decoding failure predicate: the raw text falls into one of the two
failure branches of `_build_result` (JSON extraction or schema
validation). -/
def decodeFails (s : String) : Bool :=
  match _extract_json s with
  | .error _ => true
  | .ok j => isErrE (validateJ j)

/-- The fence marker as a string. -/
def fenceS : String := String.mk fence3

/-- Wrapping of a text in a fenced block: an opening marker line carrying
an optional language tag, the inner text, and a closing marker line. -/
def wrapFence (tag inner : String) : String :=
  fenceS ++ tag ++ "\n" ++ inner ++ "\n" ++ fenceS

/-- Extraction of an optional-string field value from a payload. -/
def extrOptStr : Option Json → Option String
  | some (.str s) => some s
  | _ => none

/-- Extraction of an optional-integer field value from a payload. -/
def extrOptInt : Option Json → Option Int
  | some (.num (some n)) => some n
  | _ => none

/-- Extraction of a required-string field value from a payload. -/
def extrStr : Option Json → String
  | some (.str s) => s
  | _ => ""

/-- Extraction of one availability window from a payload element. -/
def extrWin : Json → AvailabilityWindow
  | .obj kvs =>
    ⟨extrStr (getKey kvs "start"), extrStr (getKey kvs "end"),
      extrOptStr (getKey kvs "timezone")⟩
  | _ => ⟨"", "", none⟩

/-- Extraction of the window list from a payload field value. -/
def extrWins : Option Json → List AvailabilityWindow
  | some (.arr xs) => xs.map extrWin
  | _ => []

/-- Extraction of the strings of a JSON array. -/
def extrStrs : List Json → List String
  | [] => []
  | .str s :: t => s :: extrStrs t
  | _ :: t => extrStrs t

/-- Extraction of a string-list field value from a payload. -/
def extrStrList : Option Json → List String
  | some (.arr xs) => extrStrs xs
  | _ => []

/-- Conformance of an optional-string field value: absent, null or a
string. -/
def isOptStrV : Option Json → Bool
  | none => true
  | some .null => true
  | some (.str _) => true
  | some _ => false

/-- Conformance of an optional-integer field value: absent, null or an
integer literal. -/
def isOptIntV : Option Json → Bool
  | none => true
  | some .null => true
  | some (.num (some _)) => true
  | some _ => false

/-- Conformance of a required-string field value: present and a string. -/
def isReqStrV : Option Json → Bool
  | some (.str _) => true
  | _ => false

/-- Conformance of one availability window: an object with string `start`
and `end`; `timezone` may be absent, null or a string. -/
def isWinV : Json → Bool
  | .obj kvs =>
    isReqStrV (getKey kvs "start") && isReqStrV (getKey kvs "end") &&
      isOptStrV (getKey kvs "timezone")
  | _ => false

/-- Conformance of the `availability_windows` field value: absent or an
array of conforming windows. -/
def isWinArrV : Option Json → Bool
  | none => true
  | some (.arr xs) => xs.all isWinV
  | some _ => false

/-- String test on a JSON value. -/
def isStrJ : Json → Bool
  | .str _ => true
  | _ => false

/-- Conformance of the `missing_fields` field value: absent or an array of
strings. -/
def isStrArrV : Option Json → Bool
  | none => true
  | some (.arr xs) => xs.all isStrJ
  | some _ => false

/-- The eight keys of the wire schema of the spec (the serialized
Structured Record). -/
def schemaKeys : List String :=
  ["availability_windows", "duration_minutes", "title", "description",
   "name", "email", "phone", "missing_fields"]

/-- A payload that is a valid serialization of a Structured Record, in the
words of the spec: a JSON object whose keys all belong to the wire schema,
with all eight expected keys present and each value of conforming type. -/
def conforming (j : Json) : Bool :=
  match j with
  | .obj kvs =>
    (kvs.map (fun p => p.1)).all (fun k => schemaKeys.contains k) &&
    schemaKeys.all (fun k => (getKey kvs k).isSome) &&
    isWinArrV (getKey kvs "availability_windows") &&
    isOptIntV (getKey kvs "duration_minutes") &&
    isOptStrV (getKey kvs "title") &&
    isOptStrV (getKey kvs "description") &&
    isOptStrV (getKey kvs "name") &&
    isOptStrV (getKey kvs "email") &&
    isOptStrV (getKey kvs "phone") &&
    isStrArrV (getKey kvs "missing_fields")
  | _ => false

/-- The Structured Record a conforming payload denotes, read off the
payload directly, independently of the validator. -/
def recordOf (j : Json) : ParseResult :=
  match j with
  | .obj kvs =>
    { availability_windows := extrWins (getKey kvs "availability_windows"),
      duration_minutes := extrOptInt (getKey kvs "duration_minutes"),
      title := extrOptStr (getKey kvs "title"),
      description := extrOptStr (getKey kvs "description"),
      name := extrOptStr (getKey kvs "name"),
      email := extrOptStr (getKey kvs "email"),
      phone := extrOptStr (getKey kvs "phone"),
      missing_fields := extrStrList (getKey kvs "missing_fields") }
  | _ => {}

/-- The `missing_fields` list a payload itself supplies, under the same
validation `ParseResult(**data)` applies to that field. -/
def payloadMissing : Json → Except String (List String)
  | .obj kvs => vStrList (getKey kvs "missing_fields")
  | _ => .error "argument after ** must be a mapping"

/-- Concrete input text for the round-trip scenario: a full serialization
of a Structured Record. -/
def c5Input : String :=
  "\x7b\"availability_windows\": [\x7b\"start\": \"2026-02-03T09:00:00-05:00\", \"end\": \"2026-02-03T17:00:00-05:00\", \"timezone\": null\x7d], \"duration_minutes\": 30, \"title\": \"Q3 roadmap\", \"description\": null, \"name\": \"Jane\", \"email\": \"jane@acme.com\", \"phone\": null, \"missing_fields\": []\x7d"

/-- The JSON payload denoted by `c5Input`. -/
def c5Payload : Json :=
  .obj
    [("availability_windows",
       .arr
         [.obj
            [("start", .str "2026-02-03T09:00:00-05:00"),
             ("end", .str "2026-02-03T17:00:00-05:00"),
             ("timezone", .null)]]),
     ("duration_minutes", .num (some 30)),
     ("title", .str "Q3 roadmap"),
     ("description", .null),
     ("name", .str "Jane"),
     ("email", .str "jane@acme.com"),
     ("phone", .null),
     ("missing_fields", .arr [])]

/-- Shape of `_build_result` on the JSON-extraction failure branch. -/
theorem build_result_parse_error {s e : String} (h : _extract_json s = .error e) :
    _build_result s =
      { raw_model_output := some s,
        error := some ("Failed to parse JSON: " ++ e),
        missing_fields := defaultMissingAll } := by
  unfold _build_result
  rw [h]

/-- Shape of `_build_result` on the schema-validation failure branch. -/
theorem build_result_invalid {s e : String} {j : Json}
    (hex : _extract_json s = .ok j) (hv : validateJ j = .error e) :
    _build_result s =
      { raw_model_output := some s,
        error := some ("Failed to validate schema: " ++ e),
        missing_fields := defaultMissingAll } := by
  unfold _build_result
  simp only [hex, hv]

/-- Shape of `_build_result` on the success branch. -/
theorem build_result_ok {s : String} {j : Json} {r : ParseResult}
    (hex : _extract_json s = .ok j) (hv : validateJ j = .ok r) :
    _build_result s = { r with raw_model_output := some s } := by
  unfold _build_result
  simp only [hex, hv]

/-- Inversion of a successful schema validation: the payload is an object
and every field of the result is the validated value of its key. -/
theorem validateJ_ok_elim {j : Json} {r : ParseResult} (h : validateJ j = .ok r) :
    ∃ kvs, j = .obj kvs ∧
      vWindows (getKey kvs "availability_windows") = .ok r.availability_windows ∧
      vOptInt (getKey kvs "duration_minutes") = .ok r.duration_minutes ∧
      vOptStr (getKey kvs "title") = .ok r.title ∧
      vOptStr (getKey kvs "description") = .ok r.description ∧
      vOptStr (getKey kvs "name") = .ok r.name ∧
      vOptStr (getKey kvs "email") = .ok r.email ∧
      vOptStr (getKey kvs "phone") = .ok r.phone ∧
      vStrList (getKey kvs "missing_fields") = .ok r.missing_fields ∧
      vOptStr (getKey kvs "raw_model_output") = .ok r.raw_model_output ∧
      vOptStr (getKey kvs "error") = .ok r.error := by
  cases j with
  | obj kvs =>
    unfold validateJ at h
    cases haw : vWindows (getKey kvs "availability_windows") with
    | error e => simp [haw] at h
    | ok aw =>
    simp only [haw] at h
    cases hdm : vOptInt (getKey kvs "duration_minutes") with
    | error e => simp [hdm] at h
    | ok dm =>
    simp only [hdm] at h
    cases hti : vOptStr (getKey kvs "title") with
    | error e => simp [hti] at h
    | ok ti =>
    simp only [hti] at h
    cases hde : vOptStr (getKey kvs "description") with
    | error e => simp [hde] at h
    | ok de =>
    simp only [hde] at h
    cases hnm : vOptStr (getKey kvs "name") with
    | error e => simp [hnm] at h
    | ok nm =>
    simp only [hnm] at h
    cases hem : vOptStr (getKey kvs "email") with
    | error e => simp [hem] at h
    | ok em =>
    simp only [hem] at h
    cases hph : vOptStr (getKey kvs "phone") with
    | error e => simp [hph] at h
    | ok ph =>
    simp only [hph] at h
    cases hmf : vStrList (getKey kvs "missing_fields") with
    | error e => simp [hmf] at h
    | ok mf =>
    simp only [hmf] at h
    cases hrm : vOptStr (getKey kvs "raw_model_output") with
    | error e => simp [hrm] at h
    | ok rm =>
    simp only [hrm] at h
    cases her : vOptStr (getKey kvs "error") with
    | error e => simp [her] at h
    | ok er =>
    simp only [her] at h
    cases h
    exact ⟨kvs, rfl, haw, hdm, hti, hde, hnm, hem, hph, hmf, hrm, her⟩
  | null => simp [validateJ] at h
  | bool b => simp [validateJ] at h
  | num ip => simp [validateJ] at h
  | str s => simp [validateJ] at h
  | arr xs => simp [validateJ] at h

/-- C1: for every input string the decoder is total, and on either failure
path (JSON parse failure or schema-validation failure) it returns a record
whose `error` field is set, whose `raw_model_output` is the unmodified raw
input, and whose `missing_fields` is the full default set.  Interpreter
resource limits are outside the model (see the header). -/
theorem decode_failure_yields_error_record (s : String)
    (h : decodeFails s = true) :
    (_build_result s).error ≠ none ∧
    (_build_result s).raw_model_output = some s ∧
    (_build_result s).missing_fields = defaultMissingAll := by
  unfold decodeFails at h
  cases hex : _extract_json s with
  | error e => rw [build_result_parse_error hex]; exact ⟨by simp, rfl, rfl⟩
  | ok j =>
    simp only [hex] at h
    cases hv : validateJ j with
    | error e => rw [build_result_invalid hex hv]; exact ⟨by simp, rfl, rfl⟩
    | ok r => rw [hv] at h; simp [isErrE] at h

/-- Witness for C1, exercising the schema-validation failure branch: the
payload `[1]` is valid JSON but not a mapping. -/
theorem decode_failure_yields_error_record_witness :
    decodeFails "[1]" = true ∧
    ((_build_result "[1]").error ≠ none ∧
      (_build_result "[1]").raw_model_output = some "[1]" ∧
      (_build_result "[1]").missing_fields = defaultMissingAll) :=
  ⟨by decide, decode_failure_yields_error_record "[1]" (by decide)⟩

/-- C2: on input that is not syntactically valid JSON (after optional fence
stripping) the decoder returns a record with a non-null `error`, with
`missing_fields` exactly the five-element default list, and with
`raw_model_output` equal to the original input. -/
theorem invalid_json_yields_default_error_record (s : String)
    (h : isErrE (_extract_json s) = true) :
    (_build_result s).error ≠ none ∧
    (_build_result s).missing_fields =
      ["availability", "duration", "title", "name", "email"] ∧
    (_build_result s).raw_model_output = some s := by
  cases hex : _extract_json s with
  | error e => rw [build_result_parse_error hex]; exact ⟨by simp, rfl, rfl⟩
  | ok j => rw [hex] at h; simp [isErrE] at h

/-- Witness for C2, on the scenario input of the spec. -/
theorem invalid_json_yields_default_error_record_witness :
    isErrE (_extract_json "\x7binvalid") = true ∧
    ((_build_result "\x7binvalid").error ≠ none ∧
      (_build_result "\x7binvalid").missing_fields =
        ["availability", "duration", "title", "name", "email"] ∧
      (_build_result "\x7binvalid").raw_model_output = some "\x7binvalid") :=
  ⟨by decide, invalid_json_yields_default_error_record "\x7binvalid" (by decide)⟩

/-- C10: on every path (parse failure, validation failure, success) the
record returned by the decoder carries the original raw input in
`raw_model_output`; in particular the success path overwrites any value the
payload supplied for that key. -/
theorem raw_model_output_preserved (s : String) :
    (_build_result s).raw_model_output = some s := by
  cases hex : _extract_json s with
  | error e => rw [build_result_parse_error hex]
  | ok j =>
    cases hv : validateJ j with
    | error e => rw [build_result_invalid hex hv]
    | ok r => rw [build_result_ok hex hv]

/-- C3 counterexample: the decoder does not filter `missing_fields`; the
payload value `["phone"]` passes the `list[str]` validation unchanged, so a
produced record can contain `"phone"`. -/
theorem missing_fields_phone_passthrough :
    (_build_result "\x7b\"missing_fields\": [\"phone\"]\x7d").missing_fields =
      ["phone"] := by
  decide

/-- C3 amended: every produced `missing_fields` is either the full default
list (both failure paths) or exactly the string list the payload itself
supplied under its `missing_fields` key (success path); no other value —
in particular `"phone"` — can appear unless the input payload carried it. -/
theorem missing_fields_default_or_payload (s : String) :
    (_build_result s).missing_fields = defaultMissingAll ∨
    ∃ j, _extract_json s = .ok j ∧
      payloadMissing j = .ok (_build_result s).missing_fields := by
  cases hex : _extract_json s with
  | error e => left; rw [build_result_parse_error hex]
  | ok j =>
    cases hv : validateJ j with
    | error e => left; rw [build_result_invalid hex hv]
    | ok r =>
      right
      refine ⟨j, rfl, ?_⟩
      obtain ⟨kvs, rfl, -, -, -, -, -, -, -, hmf, -, -⟩ := validateJ_ok_elim hv
      rw [build_result_ok hex hv]
      simpa [payloadMissing] using hmf

/-- Concatenation of strings concatenates their character lists. -/
theorem dataAppend (a b : String) : (a ++ b).data = a.data ++ b.data := by
  cases a
  cases b
  rfl

/-- The fence marker is its own reverse. -/
theorem fence3_rev : fence3.reverse = fence3 := by decide

/-- A backtick is not Python whitespace. -/
theorem pyIsSpace_backquote : pyIsSpace backquote = false := by decide

/-- Stripping does not consume past a leading fence marker. -/
theorem dropWhile_fence3_append (X : List Char) :
    (fence3 ++ X).dropWhile pyIsSpace = fence3 ++ X := by
  simp [fence3, List.dropWhile, pyIsSpace_backquote]

/-- A text of the shape fence-middle-fence is left unchanged by `strip`. -/
theorem stripL_fence_sandwich (mid : List Char) :
    stripL ((fence3 ++ mid) ++ fence3) = (fence3 ++ mid) ++ fence3 := by
  have h1 : rstripL ((fence3 ++ mid) ++ fence3) = (fence3 ++ mid) ++ fence3 := by
    unfold rstripL
    rw [List.reverse_append, fence3_rev, dropWhile_fence3_append]
    simp [List.reverse_append, fence3_rev]
  unfold stripL
  rw [h1]
  unfold lstripL
  rw [List.append_assoc, dropWhile_fence3_append, ← List.append_assoc]

/-- A fence marker is a prefix of anything it is prepended to. -/
theorem startsWithL_fence3 (X : List Char) :
    startsWithL fence3 (fence3 ++ X) = true := by
  simp [fence3, startsWithL]

/-- Dropping through the first newline of `xs ++ newline :: rest` yields
`rest` when `xs` is newline-free. -/
theorem dropThroughNewline_append (xs rest : List Char) (h : '\n' ∉ xs) :
    dropThroughNewline (xs ++ '\n' :: rest) = some rest := by
  induction xs with
  | nil => simp [dropThroughNewline]
  | cons a t ih =>
    have ha : ¬a = '\n' := fun e => h (e ▸ List.mem_cons_self a t)
    simp only [List.cons_append, dropThroughNewline, ha, if_false]
    exact ih fun m => h (List.mem_cons_of_mem a m)

/-- A fence marker at the end is detected by `endswith`. -/
theorem endsWithL_fence3 (X : List Char) :
    endsWithL fence3 (X ++ fence3) = true := by
  unfold endsWithL
  rw [List.reverse_append, fence3_rev]
  exact startsWithL_fence3 X.reverse

/-- Removing the final three characters removes exactly an appended fence
marker. -/
theorem takeAllBut_fence3 (X : List Char) :
    takeAllBut 3 (X ++ fence3) = X := by
  unfold takeAllBut
  rw [show (X ++ fence3).length - 3 = X.length by simp [fence3]]
  exact List.take_left X fence3

/-- Appending whitespace on the right does not change `rstrip`. -/
theorem rstripL_append_ws (l : List Char) (c : Char) (h : pyIsSpace c = true) :
    rstripL (l ++ [c]) = rstripL l := by
  unfold rstripL
  rw [List.reverse_append]
  simp [List.dropWhile, h]

/-- Appending a newline on the right does not change `strip`. -/
theorem stripL_append_newline (l : List Char) :
    stripL (l ++ ['\n']) = stripL l := by
  unfold stripL
  rw [rstripL_append_ws l '\n' (by decide)]

/-- The character list of a wrapped text, in fence-sandwich shape. -/
theorem wrapFence_data (tag inner : String) :
    (wrapFence tag inner).data =
      (fence3 ++ (tag.data ++ ('\n' :: (inner.data ++ ['\n'])))) ++ fence3 := by
  have hn : ("\n" : String).data = ['\n'] := rfl
  have hf : fenceS.data = fence3 := rfl
  simp [wrapFence, dataAppend, hn, hf, List.append_assoc]

/-- Fence stripping in `_extract_json`: a text wrapped in a fenced block
whose opening-line tag has no newline, and whose inner text does not itself
begin with a fence after stripping, extracts exactly as the inner text. -/
theorem extractJsonL_wrap (tag inner : List Char) (htag : '\n' ∉ tag)
    (hin : startsWithL fence3 (stripL inner) = false) :
    extractJsonL ((fence3 ++ (tag ++ ('\n' :: (inner ++ ['\n'])))) ++ fence3) =
      extractJsonL inner := by
  have hshape : (fence3 ++ (tag ++ ('\n' :: (inner ++ ['\n'])))) ++ fence3 =
      (fence3 ++ tag) ++ '\n' :: ((inner ++ ['\n']) ++ fence3) := by
    simp [List.append_assoc]
  have hnot : '\n' ∉ fence3 ++ tag := by
    intro hm
    rcases List.mem_append.mp hm with hm | hm
    · revert hm; decide
    · exact htag hm
  have h2 : startsWithL fence3
      (stripL ((fence3 ++ (tag ++ ('\n' :: (inner ++ ['\n'])))) ++ fence3)) = true := by
    rw [stripL_fence_sandwich]
    rw [List.append_assoc]
    exact startsWithL_fence3 _
  have h3 : dropThroughNewline
      (stripL ((fence3 ++ (tag ++ ('\n' :: (inner ++ ['\n'])))) ++ fence3)) =
      some ((inner ++ ['\n']) ++ fence3) := by
    rw [stripL_fence_sandwich, hshape]
    exact dropThroughNewline_append _ _ hnot
  unfold extractJsonL
  rw [h2, if_pos rfl, h3]
  dsimp only
  rw [endsWithL_fence3, if_pos rfl, takeAllBut_fence3, stripL_append_newline, hin]
  simp

/-- C4 amended: decoding a fenced-wrapped text agrees with decoding the
inner text on every field except `raw_model_output`, which holds the
wrapped raw text; the hypotheses rule out a newline inside the language tag
and an inner text that itself starts with a fence. -/
theorem fenced_decode_agrees_up_to_raw_output (tag inner : String)
    (htag : '\n' ∉ tag.data)
    (hin : startsWithL fence3 (stripL inner.data) = false) :
    _build_result (wrapFence tag inner) =
      { _build_result inner with raw_model_output := some (wrapFence tag inner) } := by
  have hex : _extract_json (wrapFence tag inner) = _extract_json inner := by
    unfold _extract_json
    rw [wrapFence_data]
    exact extractJsonL_wrap tag.data inner.data htag hin
  unfold _build_result
  rw [hex]
  cases h : _extract_json inner with
  | error e => rfl
  | ok j =>
    cases hv : validateJ j with
    | error e => simp [hv]
    | ok r => simp [hv]

/-- Witness for the amended C4 at a concrete fenced payload. -/
theorem fenced_decode_agrees_up_to_raw_output_witness :
    ('\n' ∉ ("json" : String).data) ∧
    startsWithL fence3 (stripL ("\x7b\"duration_minutes\": 45\x7d" : String).data) = false ∧
    _build_result (wrapFence "json" "\x7b\"duration_minutes\": 45\x7d") =
      { _build_result "\x7b\"duration_minutes\": 45\x7d" with
          raw_model_output :=
            some (wrapFence "json" "\x7b\"duration_minutes\": 45\x7d") } :=
  ⟨by decide, by decide,
    fenced_decode_agrees_up_to_raw_output "json" "\x7b\"duration_minutes\": 45\x7d"
      (by decide) (by decide)⟩

/-- C4 counterexample: the records produced for the wrapped and the
unwrapped text are not equal, because `raw_model_output` keeps the original
raw input of each call. -/
theorem fenced_decode_differs_in_raw_output :
    _build_result (wrapFence "json" "\x7b\x7d") ≠ _build_result "\x7b\x7d" := by
  decide

/-- A conforming optional-string value validates to its extracted value. -/
theorem vOptStr_extr {o : Option Json} (h : isOptStrV o = true) :
    vOptStr o = .ok (extrOptStr o) := by
  cases o with
  | none => rfl
  | some v => cases v <;> simp_all [isOptStrV, vOptStr, extrOptStr]

/-- A conforming optional-integer value validates to its extracted value. -/
theorem vOptInt_extr {o : Option Json} (h : isOptIntV o = true) :
    vOptInt o = .ok (extrOptInt o) := by
  cases o with
  | none => rfl
  | some v =>
    cases v with
    | num ip =>
      cases ip with
      | none => simp [isOptIntV] at h
      | some n => rfl
    | null => rfl
    | bool b => simp [isOptIntV] at h
    | str s => simp [isOptIntV] at h
    | arr xs => simp [isOptIntV] at h
    | obj kvs => simp [isOptIntV] at h

/-- A conforming required-string value validates to its extracted value. -/
theorem vReqStr_extr {o : Option Json} (h : isReqStrV o = true) :
    vReqStr o = .ok (extrStr o) := by
  cases o with
  | none => simp [isReqStrV] at h
  | some v => cases v <;> simp_all [isReqStrV, vReqStr, extrStr]

/-- A conforming window object validates to its extracted window. -/
theorem winOf_extr {j : Json} (h : isWinV j = true) : winOf j = .ok (extrWin j) := by
  cases j with
  | obj kvs =>
    simp only [isWinV, Bool.and_eq_true] at h
    obtain ⟨⟨h1, h2⟩, h3⟩ := h
    simp only [winOf, extrWin, vReqStr_extr h1, vReqStr_extr h2, vOptStr_extr h3]
  | null => simp [isWinV] at h
  | bool b => simp [isWinV] at h
  | num ip => simp [isWinV] at h
  | str s => simp [isWinV] at h
  | arr xs => simp [isWinV] at h

/-- A list of conforming windows validates elementwise. -/
theorem winListOf_extr {xs : List Json} (h : xs.all isWinV = true) :
    winListOf xs = .ok (xs.map extrWin) := by
  induction xs with
  | nil => rfl
  | cons a t ih =>
    simp only [List.all_cons, Bool.and_eq_true] at h
    simp only [winListOf, winOf_extr h.1, ih h.2, List.map_cons]

/-- A conforming `availability_windows` value validates to its extraction. -/
theorem vWindows_extr {o : Option Json} (h : isWinArrV o = true) :
    vWindows o = .ok (extrWins o) := by
  cases o with
  | none => rfl
  | some v =>
    cases v with
    | arr xs =>
      simp only [isWinArrV] at h
      simp only [vWindows, extrWins, winListOf_extr h]
    | null => simp [isWinArrV] at h
    | bool b => simp [isWinArrV] at h
    | num ip => simp [isWinArrV] at h
    | str s => simp [isWinArrV] at h
    | obj kvs => simp [isWinArrV] at h

/-- A list of JSON strings validates elementwise. -/
theorem strListOf_extr {xs : List Json} (h : xs.all isStrJ = true) :
    strListOf xs = .ok (extrStrs xs) := by
  induction xs with
  | nil => rfl
  | cons a t ih =>
    simp only [List.all_cons, Bool.and_eq_true] at h
    obtain ⟨h1, h2⟩ := h
    cases a <;> simp_all [isStrJ, strListOf, extrStrs]

/-- A conforming `missing_fields` value validates to its extraction. -/
theorem vStrList_extr {o : Option Json} (h : isStrArrV o = true) :
    vStrList o = .ok (extrStrList o) := by
  cases o with
  | none => rfl
  | some v =>
    cases v with
    | arr xs =>
      simp only [isStrArrV] at h
      simp only [vStrList, extrStrList, strListOf_extr h]
    | null => simp [isStrArrV] at h
    | bool b => simp [isStrArrV] at h
    | num ip => simp [isStrArrV] at h
    | str s => simp [isStrArrV] at h
    | obj kvs => simp [isStrArrV] at h

/-- A key that does not occur among the pairs has no lookup value. -/
theorem getKey_eq_none {kvs : List (String × Json)} {k : String}
    (h : k ∉ kvs.map (fun p => p.1)) : getKey kvs k = none := by
  induction kvs with
  | nil => rfl
  | cons p t ih =>
    obtain ⟨k', v⟩ := p
    simp only [List.map_cons, List.mem_cons, not_or] at h
    obtain ⟨h1, h2⟩ := h
    simp only [getKey, ih h2]
    exact if_neg fun e => h1 e.symm

/-- In a payload whose keys all lie in the wire schema, a key outside the
schema has no lookup value. -/
theorem getKey_not_schema {kvs : List (String × Json)}
    (hall : (kvs.map (fun p => p.1)).all (fun k => schemaKeys.contains k) = true)
    {k : String} (hk : schemaKeys.contains k = false) : getKey kvs k = none := by
  apply getKey_eq_none
  intro hmem
  have := List.all_eq_true.mp hall k hmem
  simp only [this] at hk
  cases hk

/-- The validator maps every conforming payload to exactly the record the
payload denotes. -/
theorem validateJ_conforming {j : Json} (h : conforming j = true) :
    validateJ j = .ok (recordOf j) := by
  cases j with
  | obj kvs =>
    simp only [conforming, Bool.and_eq_true] at h
    obtain ⟨⟨⟨⟨⟨⟨⟨⟨⟨hall, hpres⟩, hw⟩, hd⟩, ht⟩, hde⟩, hn⟩, he⟩, hp⟩, hm⟩ := h
    have hrm : getKey kvs "raw_model_output" = none :=
      getKey_not_schema hall (by decide)
    have her : getKey kvs "error" = none := getKey_not_schema hall (by decide)
    have hrm2 : vOptStr (getKey kvs "raw_model_output") = .ok none := by
      rw [hrm]
      rfl
    have her2 : vOptStr (getKey kvs "error") = .ok none := by
      rw [her]
      rfl
    simp only [validateJ, recordOf, vWindows_extr hw, vOptInt_extr hd,
      vOptStr_extr ht, vOptStr_extr hde, vOptStr_extr hn, vOptStr_extr he,
      vOptStr_extr hp, vStrList_extr hm, hrm2, her2]
  | null => simp [conforming] at h
  | bool b => simp [conforming] at h
  | num ip => simp [conforming] at h
  | str s => simp [conforming] at h
  | arr xs => simp [conforming] at h

/-- C5: decoding any text whose extracted payload is a valid serialization
of a Structured Record (the eight schema keys present with conforming
types) reproduces exactly the field values of the payload; the record
additionally carries the raw text, and its `error` is empty. -/
theorem conforming_payload_roundtrip (s : String) (j : Json)
    (hex : _extract_json s = .ok j) (hc : conforming j = true) :
    _build_result s = { recordOf j with raw_model_output := some s } :=
  build_result_ok hex (validateJ_conforming hc)

set_option maxRecDepth 100000 in
/-- Witness for C5 on a concrete full serialization. -/
theorem conforming_payload_roundtrip_witness :
    _extract_json c5Input = .ok c5Payload ∧ conforming c5Payload = true ∧
    _build_result c5Input = { recordOf c5Payload with raw_model_output := some c5Input } :=
  ⟨rfl, by decide, conforming_payload_roundtrip c5Input c5Payload rfl (by decide)⟩

/-- Strings with equal character lists are equal. -/
theorem stringDataExt {a b : String} (h : a.data = b.data) : a = b := by
  cases a
  cases b
  cases h
  rfl

/-- C6 counterexample: the missing-credential record returned by
`parse_with_anthropic` is an Error Record (its `error` is set) whose
`missing_fields` is empty, not the full required set. -/
theorem adapter_error_record_missing_fields_empty :
    parse_with_anthropic (fun _ => none) (fun _ _ => "") "hi"
        "2026-01-30T10:00:00-05:00" "America/New_York" =
      .ok (credErrorRecord "ANTHROPIC_API_KEY not set", false) ∧
    (credErrorRecord "ANTHROPIC_API_KEY not set").error ≠ none ∧
    (credErrorRecord "ANTHROPIC_API_KEY not set").missing_fields ≠
      defaultMissingAll :=
  ⟨rfl, by decide, by decide⟩

/-- C6 amended: an Error Record produced by the decoder failure paths
carries the full default missing-field set, while the Error Record an
adapter produces for a missing credential carries the empty set. -/
theorem error_record_missing_fields_by_origin :
    (∀ s : String, decodeFails s = true →
      (_build_result s).error ≠ none ∧
      (_build_result s).missing_fields = defaultMissingAll) ∧
    (∀ (env : String → Option String) (transport : String → String → String)
        (u dt tz : String), env "ANTHROPIC_API_KEY" = none →
      parse_with_anthropic env transport u dt tz =
        .ok (credErrorRecord "ANTHROPIC_API_KEY not set", false) ∧
      (credErrorRecord "ANTHROPIC_API_KEY not set").error ≠ none ∧
      (credErrorRecord "ANTHROPIC_API_KEY not set").missing_fields = []) := by
  constructor
  · intro s h
    unfold decodeFails at h
    cases hex : _extract_json s with
    | error e => rw [build_result_parse_error hex]; exact ⟨by simp, rfl⟩
    | ok j =>
      simp only [hex] at h
      cases hv : validateJ j with
      | error e => rw [build_result_invalid hex hv]; exact ⟨by simp, rfl⟩
      | ok r => rw [hv] at h; simp [isErrE] at h
  · intro env transport u dt tz henv
    refine ⟨?_, by decide, by decide⟩
    simp [parse_with_anthropic, henv, truthy]

/-- Witness for the amended C6 on both origins. -/
theorem error_record_missing_fields_by_origin_witness :
    (decodeFails "[" = true ∧
      (_build_result "[").error ≠ none ∧
      (_build_result "[").missing_fields = defaultMissingAll) ∧
    (parse_with_anthropic (fun _ => none) (fun _ _ => "x") "u" "d" "z" =
        .ok (credErrorRecord "ANTHROPIC_API_KEY not set", false) ∧
      (credErrorRecord "ANTHROPIC_API_KEY not set").error ≠ none ∧
      (credErrorRecord "ANTHROPIC_API_KEY not set").missing_fields = []) :=
  ⟨⟨by decide, error_record_missing_fields_by_origin.1 "[" (by decide)⟩,
    error_record_missing_fields_by_origin.2 (fun _ => none) (fun _ _ => "x")
      "u" "d" "z" rfl⟩

/-- C7: with the vendor credential absent from the environment, each
adapter returns its missing-credential Error Record with the
network-attempted flag `false` — the transport is never invoked. -/
theorem absent_credential_no_network :
    ∀ (env : String → Option String) (transport : String → String → String)
      (u dt tz : String),
    (env "ANTHROPIC_API_KEY" = none →
      parse_with_anthropic env transport u dt tz =
        .ok (credErrorRecord "ANTHROPIC_API_KEY not set", false) ∧
      (credErrorRecord "ANTHROPIC_API_KEY not set").error ≠ none) ∧
    (env "OPENAI_API_KEY" = none →
      parse_with_openai env transport u dt tz =
        .ok (credErrorRecord "OPENAI_API_KEY not set", false) ∧
      (credErrorRecord "OPENAI_API_KEY not set").error ≠ none) ∧
    (env "GEMINI_API_KEY" = none → env "GOOGLE_API_KEY" = none →
      parse_with_gemini env transport u dt tz =
        .ok (credErrorRecord "GEMINI_API_KEY / GOOGLE_API_KEY not set", false) ∧
      (credErrorRecord "GEMINI_API_KEY / GOOGLE_API_KEY not set").error ≠ none) := by
  intro env transport u dt tz
  refine ⟨fun h => ⟨?_, by decide⟩, fun h => ⟨?_, by decide⟩,
    fun h1 h2 => ⟨?_, by decide⟩⟩
  · simp [parse_with_anthropic, h, truthy]
  · simp [parse_with_openai, h, truthy]
  · simp [parse_with_gemini, h1, h2, truthy]

/-- Witness for C7 with a concrete empty environment and stub transport. -/
theorem absent_credential_no_network_witness :
    (parse_with_anthropic (fun _ => none) (fun _ _ => "raw") "u" "d" "z" =
        .ok (credErrorRecord "ANTHROPIC_API_KEY not set", false) ∧
      (credErrorRecord "ANTHROPIC_API_KEY not set").error ≠ none) ∧
    (parse_with_openai (fun _ => none) (fun _ _ => "raw") "u" "d" "z" =
        .ok (credErrorRecord "OPENAI_API_KEY not set", false) ∧
      (credErrorRecord "OPENAI_API_KEY not set").error ≠ none) ∧
    (parse_with_gemini (fun _ => none) (fun _ _ => "raw") "u" "d" "z" =
        .ok (credErrorRecord "GEMINI_API_KEY / GOOGLE_API_KEY not set", false) ∧
      (credErrorRecord "GEMINI_API_KEY / GOOGLE_API_KEY not set").error ≠ none) := by
  obtain ⟨h1, h2, h3⟩ :=
    absent_credential_no_network (fun _ => none) (fun _ _ => "raw") "u" "d" "z"
  exact ⟨h1 rfl, h2 rfl, h3 rfl rfl⟩

/-- C8: the instruction compiler is a pure function of its two arguments —
the embedding reads no ambient state (the only use of the datetime library
is parsing the argument itself), so equal Reference Contexts give
character-identical instruction text. -/
theorem build_system_prompt_deterministic :
    ∀ dt1 tz1 dt2 tz2 : String, dt1 = dt2 → tz1 = tz2 →
      build_system_prompt dt1 tz1 = build_system_prompt dt2 tz2 := by
  intro dt1 tz1 dt2 tz2 h1 h2
  rw [h1, h2]

/-- Witness for C8 at the default Reference Context of the source. -/
theorem build_system_prompt_deterministic_witness :
    build_system_prompt "2026-01-30T10:00:00-05:00" "America/New_York" =
      build_system_prompt "2026-01-30T10:00:00-05:00" "America/New_York" :=
  build_system_prompt_deterministic
    "2026-01-30T10:00:00-05:00" "America/New_York"
    "2026-01-30T10:00:00-05:00" "America/New_York" rfl rfl

/-- C9: whenever the reference datetime parses to the calendar date
2026-01-30, the compiled instruction text literally contains the statement
that the reference day of week is Friday. -/
theorem prompt_states_friday :
    ∀ dt tz : String, pyFromIsoFormat dt = some (2026, 1, 30) →
      ∃ s t : String, build_system_prompt dt tz =
        some (s ++ ("The current day of the week is: Friday" ++ t)) := by
  intro dt tz h
  have hdow : dayOfWeekName 2026 1 30 = "Friday" := by decide
  have hc1 : promptChunk1.data =
      ("\n" : String).data ++ ("The current day of the week is: " : String).data := rfl
  have hmk : ("The current day of the week is: Friday" : String).data =
      ("The current day of the week is: " : String).data ++
        ("Friday" : String).data := rfl
  unfold build_system_prompt
  rw [h]
  dsimp only
  rw [hdow]
  refine ⟨promptChunk0 ++ dt ++ "\n",
    promptChunk2 ++ tz ++ promptChunk3 ++ isoDateStr 2026 1 30 ++
      promptChunk4 ++ "Friday" ++ promptChunk5 ++ isoDateStr 2026 1 30 ++
      promptChunk6 ++ tz ++ promptChunk7 ++ SCHEMA_JSON ++ promptChunk8 ++
      isoDateStr 2026 1 30 ++ promptChunk9, ?_⟩
  refine congrArg some (stringDataExt ?_)
  simp [dataAppend, List.append_assoc, hc1, hmk]

/-- Witness for C9 at the default Reference Context of the source. -/
theorem prompt_states_friday_witness :
    pyFromIsoFormat "2026-01-30T10:00:00-05:00" = some (2026, 1, 30) ∧
    ∃ s t : String,
      build_system_prompt "2026-01-30T10:00:00-05:00" "America/New_York" =
        some (s ++ ("The current day of the week is: Friday" ++ t)) :=
  ⟨rfl, prompt_states_friday "2026-01-30T10:00:00-05:00" "America/New_York" rfl⟩

end Spike
